import Mathlib

/-!
Shallow embedding of the serverless order-processing pipeline
(lucaslcw/serverless): the queue workers over a document store.

DynamoDB tables are modelled as Lean lists of rows keyed by their id
field; a conditional put (attribute_not_exists on the key) is an append
guarded by a key-absence test, and an unconditional put replaces the row
with the same key or appends.  Queue publishes are collected as lists of
messages.  JS numbers used for money are modelled as scaled integers
(Int), as the specification allows, quantities as Nat, and the stock
sum as Int.  Randomness in the payment gateway is an
explicit draw parameter.
-/

/-! ## Shared schemas (src/serverless/shared/schemas) -/

inductive OrderStatus
  | PENDING
  | PROCESSED
  | CANCELLED
deriving DecidableEq, Repr

inductive PaymentStatus
  | PENDING
  | APPROVED
  | DECLINED
  | ERROR
deriving DecidableEq, Repr

inductive StockOperationType
  | INCREASE
  | DECREASE
deriving DecidableEq, Repr

structure OrderItem where
  id : String
  quantity : Nat
  unitPrice : Int
  totalPrice : Int
  productName : String
  hasStockControl : Bool
deriving DecidableEq, Repr

structure PaymentData where
  cardNumber : String
  cardHolderName : String
  expiryMonth : String
  expiryYear : String
  cvv : String
deriving DecidableEq, Repr

structure AddressData where
  street : String
  number : String
  complement : Option String
  neighborhood : String
  city : String
  state : String
  zipCode : String
  country : String
deriving DecidableEq, Repr

structure CustomerData where
  cpf : String
  email : String
  name : String
deriving DecidableEq, Repr

structure LeadData where
  id : String
  cpf : String
  name : String
  email : String
  createdAt : String
  updatedAt : String
deriving DecidableEq, Repr

structure ProductData where
  id : String
  name : String
  price : Int
  description : String
  isActive : Bool
  hasStockControl : Option Bool
deriving DecidableEq, Repr

structure ProductStockData where
  id : String
  productId : String
  type : StockOperationType
  quantity : Nat
  reason : String
  orderId : Option String
  createdAt : String
deriving DecidableEq, Repr

/-- The Order aggregate.  The reason and transactionId attributes are
absent at creation and written only by the update worker, so they are
optional here. -/
structure OrderData where
  id : String
  cpf : String
  name : String
  email : String
  leadId : String
  items : List OrderItem
  totalItems : Nat
  totalValue : Int
  status : OrderStatus
  addressData : Option AddressData
  reason : Option String
  transactionId : Option String
  createdAt : String
  updatedAt : String
deriving DecidableEq, Repr

structure TransactionData where
  id : String
  amount : Int
  orderId : String
  authCode : Option String
  processingTime : Option Nat
  paymentData : PaymentData
  addressData : AddressData
  customerData : CustomerData
  paymentStatus : PaymentStatus
  createdAt : String
  updatedAt : String
deriving DecidableEq, Repr

/-! ## JS string semantics

The string operations of the source are modelled on the character list
of the Lean string: s.slice(-n) keeps the last n characters (all of
them when the string is shorter), s.endsWith(t) compares the last |t|
characters with t, s.substring(0,n) keeps the first n characters. -/

/-- JS s.slice(-n): the last n characters of s. -/
def jsSliceLast (s : String) (n : Nat) : String :=
  String.mk (s.data.drop (s.data.length - n))

/-- JS s.endsWith(t). -/
def jsEndsWith (s t : String) : Bool :=
  t.data == s.data.drop (s.data.length - t.data.length)

/-- JS s.substring(0,n): the first n characters of s. -/
def jsTake (s : String) (n : Nat) : String :=
  String.mk (s.data.take n)

/-! ## Masking helpers (src/serverless/shared/logger.ts) -/

def maskSensitiveData.cpf (cpf : String) : String :=
  if cpf.length < 3 then "***" else jsTake cpf 3 ++ "***"

def maskSensitiveData.creditCard (cardNumber : String) : String :=
  if cardNumber.length < 4 then "***" else "****-****-****-" ++ jsSliceLast cardNumber 4

/-! ## The shared document-store state -/

/-- The durable state the workers share: the four tables. -/
structure Db where
  products : List ProductData
  stockEntries : List ProductStockData
  orders : List OrderData
  leads : List LeadData
deriving DecidableEq, Repr

/-- Ledger sum for one product: total INCREASE minus total DECREASE over
the StockEntries with that productId.  This function appears verbatim in
both the order worker and the stock worker. -/
def calculateCurrentStock (ledger : List ProductStockData) (productId : String) : Int :=
  let items := ledger.filter (fun e => e.productId == productId)
  if items.isEmpty then 0
  else
    let totals := items.foldl
      (fun acc entry =>
        match entry.type with
        | .INCREASE => (acc.1 + (entry.quantity : Int), acc.2)
        | .DECREASE => (acc.1, acc.2 + (entry.quantity : Int)))
      ((0 : Int), (0 : Int))
    totals.1 - totals.2

/-! ## Message shapes -/

/-- The per-item shape the order worker receives (id and quantity only). -/
structure ReqItem where
  id : String
  quantity : Nat
deriving DecidableEq, Repr

/-- The payload of an INITIALIZE-topic message as the order worker reads
it (paymentData and addressData may be absent). -/
structure MessageData where
  orderId : String
  customerData : CustomerData
  paymentData : Option PaymentData
  addressData : Option AddressData
  items : List ReqItem
deriving DecidableEq, Repr

structure StockUpdateMessage where
  productId : String
  quantity : Nat
  operation : StockOperationType
  orderId : String
  reason : String
deriving DecidableEq, Repr

structure TransactionMessage where
  orderId : String
  orderTotalValue : Int
  paymentData : PaymentData
  addressData : AddressData
  customerData : CustomerData
deriving DecidableEq, Repr

structure UpdateOrderMessage where
  orderId : String
  status : OrderStatus
  reason : Option String
  transactionId : Option String
deriving DecidableEq, Repr

/-! ## UPDATE-WORKER (src/serverless/lambdas/order/update-order.ts) -/

namespace UpdateOrder

/-- Lookup of the Order row by its key, as the GetCommand in the update
worker performs it. -/
def getOrderById (orders : List OrderData) (orderId : String) : Option OrderData :=
  orders.find? (fun o => o.id == orderId)

/-- The transition table of the update worker. -/
def isValidStatusTransition (currentStatus newStatus : OrderStatus) : Bool :=
  let allowedTransitions : List OrderStatus :=
    match currentStatus with
    | .PENDING => [.PROCESSED, .CANCELLED]
    | .PROCESSED => []
    | .CANCELLED => []
  allowedTransitions.contains newStatus

/-- JS truthiness of an optional string field, as used by the guards
building the UpdateExpression (an absent or empty reason is not set). -/
def truthyString : Option String → Bool
  | some s => !s.isEmpty
  | none => false

/-- The conditional patch on the Order key: set status and updatedAt,
and set reason and transactionId when the message carries them. -/
def updateOrderStatus (orders : List OrderData) (message : UpdateOrderMessage)
    (now : String) : List OrderData :=
  orders.map (fun o =>
    if o.id == message.orderId then
      let o1 := { o with status := message.status, updatedAt := now }
      let o2 := if truthyString message.reason
        then { o1 with reason := message.reason } else o1
      if truthyString message.transactionId
        then { o2 with transactionId := message.transactionId } else o2
    else o)

inductive UpdateOrderError
  | orderNotFound (orderId : String)
  | invalidStatusTransition (currentStatus newStatus : OrderStatus)
deriving DecidableEq, Repr

/-- The per-record logic of the update worker: load the Order, validate
the transition, then apply the patch; a missing Order or an invalid
transition raises and nothing is written. -/
def updateOrderRecord (orders : List OrderData) (message : UpdateOrderMessage)
    (now : String) : Except UpdateOrderError (List OrderData) :=
  match getOrderById orders message.orderId with
  | none => .error (.orderNotFound message.orderId)
  | some order =>
    if isValidStatusTransition order.status message.status then
      .ok (updateOrderStatus orders message now)
    else
      .error (.invalidStatusTransition order.status message.status)

/-- The state of the Order table after the record is processed: an error
leaves the table untouched (the thrown record performed no write). -/
def runUpdateOrder (orders : List OrderData) (message : UpdateOrderMessage)
    (now : String) : List OrderData :=
  match updateOrderRecord orders message now with
  | .ok updated => updated
  | .error _ => orders

end UpdateOrder

/-! ## STOCK-WORKER (update-product-stock, ledger version) -/

namespace UpdateProductStock

/-- Product lookup of the stock worker: returns the row as stored; the
isActive check is performed separately by validateProductForStockUpdate. -/
def getProductById (products : List ProductData) (productId : String) : Option ProductData :=
  products.find? (fun p => p.id == productId)

inductive StockUpdateError
  | productNotFound (productId : String)
  | productInactive (productId : String)
  | insufficientStock (productId : String) (current : Int) (required : Nat)
deriving DecidableEq, Repr

/-- An unconditional DynamoDB put into the product-stock table: the row
with the same id is replaced if present, otherwise the item is appended. -/
def putStockEntry (ledger : List ProductStockData) (entry : ProductStockData) :
    List ProductStockData :=
  if ledger.any (fun e => e.id == entry.id) then
    ledger.map (fun e => if e.id == entry.id then entry else e)
  else ledger ++ [entry]

/-- createStockEntry: build a new ledger entry with a freshly generated
id (the uuid is an explicit parameter here) and put it. -/
def createStockEntry (ledger : List ProductStockData) (freshId : String)
    (productId : String) (type : StockOperationType) (quantity : Nat)
    (reason : String) (orderId : Option String) (now : String) :
    List ProductStockData :=
  let stockEntry : ProductStockData :=
    { id := freshId, productId := productId, type := type, quantity := quantity,
      reason := reason, orderId := orderId, createdAt := now }
  putStockEntry ledger stockEntry

/-- The per-message logic of the stock worker: load and validate the
product, for DECREASE recompute the ledger sum and fail if insufficient,
otherwise append one new entry. -/
def processStockUpdate (products : List ProductData) (ledger : List ProductStockData)
    (message : StockUpdateMessage) (freshId now : String) :
    Except StockUpdateError (List ProductStockData) :=
  match getProductById products message.productId with
  | none => .error (.productNotFound message.productId)
  | some product =>
    if product.isActive then
      if message.operation = .DECREASE then
        let currentStock := calculateCurrentStock ledger message.productId
        if currentStock < (message.quantity : Int) then
          .error (.insufficientStock message.productId currentStock message.quantity)
        else
          .ok (createStockEntry ledger freshId message.productId message.operation
            message.quantity message.reason (some message.orderId) now)
      else
        .ok (createStockEntry ledger freshId message.productId message.operation
          message.quantity message.reason (some message.orderId) now)
    else
      .error (.productInactive message.productId)

end UpdateProductStock

/-! ## PAYMENT-WORKER (process-transaction) -/

namespace ProcessTransaction

inductive TransactionValueCategory
  | HIGH
  | MEDIUM
  | LOW
deriving DecidableEq, Repr

/-- Tiering of the order value against the PAYMENT_LIMITS thresholds. -/
def getTransactionValueCategory (totalValue : Int) : TransactionValueCategory :=
  if totalValue ≥ 10000 then .HIGH
  else if totalValue ≥ 1000 then .MEDIUM
  else .LOW

/-- The simulated gateway decision.  The random draw of the source
(Math.random) is an explicit parameter; the card suffix override comes
first and ignores it. -/
def simulatePaymentApproval (paymentData : PaymentData) (totalValue : Int)
    (randomDraw : Rat) : Bool :=
  if jsEndsWith paymentData.cardNumber ("0000") then
    false
  else
    let approvalRate : Rat :=
      match getTransactionValueCategory totalValue with
      | .HIGH => 0.75
      | .MEDIUM => 0.85
      | .LOW => 0.95
    randomDraw < approvalRate

structure PaymentResult where
  status : PaymentStatus
  processingTime : Nat
  authCode : Option String
  errorMessage : Option String
deriving DecidableEq, Repr

/-- The Transaction record the payment worker persists: the card number
is reduced to its last four characters behind a fixed mask, the cvv is
replaced by the fixed sentinel, and the customer cpf is masked. -/
def createTransactionRecord (transactionId orderId : String) (totalValue : Int)
    (paymentData : PaymentData) (addressData : AddressData)
    (customerData : CustomerData) (paymentResult : PaymentResult)
    (now : String) : TransactionData :=
  let maskedPaymentData : PaymentData :=
    { paymentData with
      cardNumber := "****-****-****-" ++ jsSliceLast paymentData.cardNumber 4,
      cvv := "***" }
  { id := transactionId
    orderId := orderId
    paymentData := maskedPaymentData
    addressData := addressData
    customerData :=
      { name := customerData.name
        email := customerData.email
        cpf := maskSensitiveData.cpf customerData.cpf }
    paymentStatus := paymentResult.status
    amount := totalValue
    authCode := paymentResult.authCode
    processingTime := some paymentResult.processingTime
    createdAt := now
    updatedAt := now }

end ProcessTransaction

/-! ## LEAD-WORKER (src/serverless/lambdas/lead/create-lead.ts) -/

namespace CreateLead

def normalizeCpf (cpf : String) : String :=
  String.mk (cpf.data.filter Char.isDigit)

/-- Query the email index and look for a row with the matching cpf. -/
def checkExistingLead (leads : List LeadData) (cpf email : String) : Option LeadData :=
  let emailItems := leads.filter (fun l => l.email == email)
  if emailItems.isEmpty then none
  else emailItems.find? (fun l => l.cpf == cpf)

/-- The PutCommand of the lead worker carries no ConditionExpression: it
is an unconditional DynamoDB put, replacing any row with the same id. -/
def putLead (leads : List LeadData) (newLead : LeadData) : List LeadData :=
  if leads.any (fun l => l.id == newLead.id) then
    leads.map (fun l => if l.id == newLead.id then newLead else l)
  else leads ++ [newLead]

/-- createLeadInDatabase of the lead worker: skip when an (email, cpf)
match exists, otherwise put a new Lead under a freshly generated id. -/
def createLeadInDatabase (leads : List LeadData) (cpf email name : String)
    (leadId now : String) : List LeadData :=
  match checkExistingLead leads cpf email with
  | some _ => leads
  | none =>
    let newLead : LeadData :=
      { id := leadId, cpf := cpf, name := name, email := email,
        createdAt := now, updatedAt := now }
    putLead leads newLead

end CreateLead

/-! ## ORDER-WORKER (create-order, ledger version inside update-order.ts) -/

namespace CreateOrder

/-- Product lookup of the order worker: an inactive product is treated
exactly like a missing one (the function returns null for it). -/
def getProductById (products : List ProductData) (productId : String) : Option ProductData :=
  match products.find? (fun p => p.id == productId) with
  | some product => if product.isActive then some product else none
  | none => none

/-- The only error enrichment can raise. -/
inductive EnrichError
  | insufficientStock (productName : String) (requested : Nat) (available : Int)
deriving DecidableEq, Repr

/-- Phase A: enrich each requested item from the catalog.  A found,
active product with stock control triggers the ledger-sum check; a
missing or inactive product yields the Unknown Product fallback item. -/
def enrichOrderItems (db : Db) : List ReqItem → Except EnrichError (List OrderItem)
  | [] => .ok []
  | item :: rest =>
    match getProductById db.products item.id with
    | some product =>
      let productHasStockControl := product.hasStockControl.getD false
      let currentStock := calculateCurrentStock db.stockEntries item.id
      if productHasStockControl ∧ currentStock < (item.quantity : Int) then
        .error (.insufficientStock product.name item.quantity currentStock)
      else
        let enrichedItem : OrderItem :=
          { id := item.id, quantity := item.quantity,
            productName := product.name, unitPrice := product.price,
            totalPrice := product.price * (item.quantity : Int),
            hasStockControl := productHasStockControl }
        (enrichOrderItems db rest).map (fun es => enrichedItem :: es)
    | none =>
      let enrichedItem : OrderItem :=
        { id := item.id, quantity := item.quantity,
          productName := "Unknown Product", unitPrice := 0,
          totalPrice := 0, hasStockControl := false }
      (enrichOrderItems db rest).map (fun es => enrichedItem :: es)

/-- The Phase A failure condition for one requested item: the catalog
lookup succeeds, the product has stock control, and the ledger sum is
below the requested quantity. -/
def stockShortfall (db : Db) (item : ReqItem) : Bool :=
  match getProductById db.products item.id with
  | some product =>
    (product.hasStockControl.getD false) &&
      decide (calculateCurrentStock db.stockEntries item.id < (item.quantity : Int))
  | none => false

/-- Phase B: one DECREASE message per enriched item with stock control
and positive quantity. -/
def sendStockUpdateMessages (items : List OrderItem) (orderId : String) :
    List StockUpdateMessage :=
  let itemsWithStockControl :=
    items.filter (fun item => item.hasStockControl && decide (0 < item.quantity))
  itemsWithStockControl.map (fun item =>
    { productId := item.id, quantity := item.quantity, operation := .DECREASE,
      orderId := orderId, reason := "Order sale" })

inductive OrderProcError
  | insufficientStock (productName : String) (requested : Nat) (available : Int)
  | leadConflict (leadId : String)
  | orderConflict (orderId : String)
deriving DecidableEq, Repr

/-- Query the lead email index and look for a row with the matching cpf. -/
def findExistingLead (leads : List LeadData) (email cpf : String) : Option LeadData :=
  let emailItems := leads.filter (fun l => l.email == email)
  emailItems.find? (fun l => l.cpf == cpf)

/-- The conditional insert of the order worker for leads: the put
carries ConditionExpression attribute_not_exists(id), so an existing id
raises a Conflict and nothing is written. -/
def createLeadInDatabase (leads : List LeadData) (leadData : LeadData) :
    Except OrderProcError (List LeadData) :=
  if leads.any (fun l => l.id == leadData.id) then
    .error (.leadConflict leadData.id)
  else
    .ok (leads ++ [leadData])

/-- Phase C: find-or-create of the lead (the fresh lead id the source
draws from Date.now and Math.random is an explicit parameter). -/
def findOrCreateLead (leads : List LeadData) (email cpf name : String)
    (newLeadId now : String) : Except OrderProcError (LeadData × List LeadData) :=
  match findExistingLead leads email cpf with
  | some existingLead => .ok (existingLead, leads)
  | none =>
    let newLeadData : LeadData :=
      { id := newLeadId, cpf := cpf, name := name, email := email,
        createdAt := now, updatedAt := now }
    (createLeadInDatabase leads newLeadData).map (fun leads2 => (newLeadData, leads2))

/-- Phase D: the conditional insert of the Order row, with precondition
attribute_not_exists on the key; an existing row raises a Conflict and
the table is not written. -/
def createOrderInDatabase (orders : List OrderData) (orderRecord : OrderData) :
    Except OrderProcError (List OrderData) :=
  if orders.any (fun o => o.id == orderRecord.id) then
    .error (.orderConflict orderRecord.id)
  else
    .ok (orders ++ [orderRecord])

/-- The Order record the handler assembles before Phase D. -/
def buildOrderRecord (message : MessageData) (leadData : LeadData)
    (enrichedItems : List OrderItem) (totalValue : Int) (now : String) : OrderData :=
  { id := message.orderId
    cpf := leadData.cpf
    name := leadData.name
    leadId := leadData.id
    email := leadData.email
    items := enrichedItems
    totalItems := enrichedItems.foldl (fun total item => total + item.quantity) 0
    totalValue := totalValue
    status := .PENDING
    addressData := message.addressData
    reason := none
    transactionId := none
    createdAt := now
    updatedAt := now }

/-- What one record of the order worker produced: the thrown-or-done
outcome, the store afterwards, and the published messages. -/
structure RecordOutcome where
  result : Except OrderProcError Unit
  db : Db
  stockMessages : List StockUpdateMessage
  transactionMessages : List TransactionMessage
deriving Repr

/-- The per-record pipeline of the order worker: enrichment, stock
fan-out, lead association, conditional order insert, payment dispatch.
An error thrown by a phase propagates and fails the record; the stock
messages already published stay published, and a lead created in Phase C
stays created even when Phase D raises.  Phase E failures are swallowed
by the source, so the dispatch itself always succeeds here. -/
def processOrderRecord (db : Db) (message : MessageData) (newLeadId now : String) :
    RecordOutcome :=
  match enrichOrderItems db message.items with
  | .error (.insufficientStock n r a) =>
    { result := .error (.insufficientStock n r a), db := db,
      stockMessages := [], transactionMessages := [] }
  | .ok enrichedItems =>
    let totalValue := enrichedItems.foldl (fun total item => total + item.totalPrice) 0
    let stockMessages := sendStockUpdateMessages enrichedItems message.orderId
    match findOrCreateLead db.leads message.customerData.email message.customerData.cpf
        message.customerData.name newLeadId now with
    | .error e =>
      { result := .error e, db := db,
        stockMessages := stockMessages, transactionMessages := [] }
    | .ok (leadData, leads2) =>
      let orderRecord := buildOrderRecord message leadData enrichedItems totalValue now
      match createOrderInDatabase db.orders orderRecord with
      | .error e =>
        { result := .error e, db := { db with leads := leads2 },
          stockMessages := stockMessages, transactionMessages := [] }
      | .ok orders2 =>
        let transactionMessages : List TransactionMessage :=
          match message.paymentData, message.addressData with
          | some paymentData, some addressData =>
            [{ orderId := message.orderId, orderTotalValue := orderRecord.totalValue,
               paymentData := paymentData, addressData := addressData,
               customerData := message.customerData }]
          | _, _ => []
        { result := .ok (), db := { db with leads := leads2, orders := orders2 },
          stockMessages := stockMessages, transactionMessages := transactionMessages }

end CreateOrder

/-! ## Demonstration data used by the concrete instances -/

def demoCustomer : CustomerData :=
  { cpf := "12345678901", email := "a@x.io", name := "Ana Silva" }

def demoLead : LeadData :=
  { id := "lead-1", cpf := "12345678901", name := "Ana Silva", email := "a@x.io",
    createdAt := "t0", updatedAt := "t0" }

def demoOrder : OrderData :=
  { id := "ord-1", cpf := "12345678901", name := "Ana Silva", email := "a@x.io",
    leadId := "lead-1", items := [], totalItems := 0, totalValue := 0,
    status := .PENDING, addressData := none, reason := none, transactionId := none,
    createdAt := "t0", updatedAt := "t0" }

def demoPayment : PaymentData :=
  { cardNumber := "4111111111111111", cardHolderName := "ANA SILVA",
    expiryMonth := "01", expiryYear := "2030", cvv := "123" }

def demoAddress : AddressData :=
  { street := "Rua A", number := "10", complement := none, neighborhood := "Centro",
    city := "Sao Paulo", state := "SP", zipCode := "01234-567", country := "BR" }

def demoDupDb : Db :=
  { products := [], stockEntries := [], orders := [demoOrder], leads := [demoLead] }

def demoDupMsg : MessageData :=
  { orderId := "ord-1", customerData := demoCustomer, paymentData := none,
    addressData := none, items := [] }

def demoInactiveDb : Db :=
  { products := [{ id := "p1", name := "Produto", price := 10, description := "d",
                   isActive := false, hasStockControl := some true }],
    stockEntries := [], orders := [], leads := [demoLead] }

def demoInactiveMsg : MessageData :=
  { orderId := "ord-5", customerData := demoCustomer, paymentData := none,
    addressData := none, items := [{ id := "p1", quantity := 2 }] }

def demoShortDb : Db :=
  { products := [{ id := "p1", name := "Produto", price := 10, description := "d",
                   isActive := true, hasStockControl := some true }],
    stockEntries := [{ id := "se-1", productId := "p1", type := .INCREASE, quantity := 2,
                       reason := "restock", orderId := none, createdAt := "t0" }],
    orders := [], leads := [] }

def demoShortMsg : MessageData :=
  { orderId := "ord-2", customerData := demoCustomer, paymentData := none,
    addressData := none, items := [{ id := "p1", quantity := 10 }] }

def demoTwoReqs : List ReqItem :=
  [{ id := "p1", quantity := 2 }, { id := "p2", quantity := 3 }]

def demoTwoEnriched : List OrderItem :=
  [{ id := "p1", quantity := 2, unitPrice := 10, totalPrice := 20,
     productName := "Produto", hasStockControl := true },
   { id := "p2", quantity := 3, unitPrice := 0, totalPrice := 0,
     productName := "Unknown Product", hasStockControl := false }]

def demoOkDb : Db :=
  { products := [{ id := "p1", name := "Produto", price := 10, description := "d",
                   isActive := true, hasStockControl := some true }],
    stockEntries := [{ id := "se-1", productId := "p1", type := .INCREASE, quantity := 100,
                       reason := "restock", orderId := none, createdAt := "t0" }],
    orders := [], leads := [demoLead] }

def demoOkMsg : MessageData :=
  { orderId := "ord-9", customerData := demoCustomer, paymentData := some demoPayment,
    addressData := some demoAddress, items := [{ id := "p1", quantity := 2 }] }

def demoOkEnriched : List OrderItem :=
  [{ id := "p1", quantity := 2, unitPrice := 10, totalPrice := 20,
     productName := "Produto", hasStockControl := true }]

/-! ## Helper lemmas -/

theorem except_map_eq_ok {ε α β : Type} (f : α → β) (x : Except ε α) (b : β) :
    x.map f = .ok b ↔ ∃ a, x = .ok a ∧ f a = b := by
  cases x <;> simp [Except.map]

theorem valid_transition_characterization (s t : OrderStatus) :
    UpdateOrder.isValidStatusTransition s t = true ↔
      s = .PENDING ∧ (t = .PROCESSED ∨ t = .CANCELLED) := by
  cases s <;> cases t <;> simp [UpdateOrder.isValidStatusTransition]

/-- C2: the update worker applies a status update only for the
transitions PENDING to PROCESSED and PENDING to CANCELLED; when the
stored Order is PROCESSED or CANCELLED every requested update is
rejected as an invalid transition and the Order table is unchanged, so
no Order leaves a terminal state. -/
theorem c2_terminal_states_frozen (orders : List OrderData)
    (message : UpdateOrderMessage) (now : String) (order : OrderData)
    (hfound : UpdateOrder.getOrderById orders message.orderId = some order) :
    ((order.status = .PROCESSED ∨ order.status = .CANCELLED) →
      UpdateOrder.updateOrderRecord orders message now
          = .error (.invalidStatusTransition order.status message.status) ∧
      UpdateOrder.runUpdateOrder orders message now = orders) ∧
    (∀ orders2, UpdateOrder.updateOrderRecord orders message now = .ok orders2 →
      order.status = .PENDING ∧
      (message.status = .PROCESSED ∨ message.status = .CANCELLED)) := by
  constructor
  · intro hterm
    have hinvalid : UpdateOrder.isValidStatusTransition order.status message.status = false := by
      rcases hterm with h | h <;> rw [h] <;> cases message.status <;> decide
    have hrec : UpdateOrder.updateOrderRecord orders message now
        = .error (.invalidStatusTransition order.status message.status) := by
      simp [UpdateOrder.updateOrderRecord, hfound, hinvalid]
    refine ⟨hrec, ?_⟩
    unfold UpdateOrder.runUpdateOrder
    rw [hrec]
  · intro orders2 hok
    simp only [UpdateOrder.updateOrderRecord, hfound] at hok
    by_cases hvalid : UpdateOrder.isValidStatusTransition order.status message.status = true
    · exact (valid_transition_characterization order.status message.status).mp hvalid
    · rw [Bool.not_eq_true] at hvalid
      rw [hvalid] at hok
      simp at hok

/-- C2 witness: a CANCELLED order rejects a PROCESSED update and the
table is unchanged. -/
theorem c2_witness :
    UpdateOrder.getOrderById [{ demoOrder with status := .CANCELLED }] ("ord-1")
        = some { demoOrder with status := .CANCELLED } ∧
    UpdateOrder.updateOrderRecord [{ demoOrder with status := .CANCELLED }]
        { orderId := "ord-1", status := .PROCESSED, reason := none, transactionId := none } "t2"
        = .error (.invalidStatusTransition .CANCELLED .PROCESSED) ∧
    UpdateOrder.runUpdateOrder [{ demoOrder with status := .CANCELLED }]
        { orderId := "ord-1", status := .PROCESSED, reason := none, transactionId := none } "t2"
        = [{ demoOrder with status := .CANCELLED }] := by
  refine ⟨by decide, ?_⟩
  have h := c2_terminal_states_frozen
    [{ demoOrder with status := .CANCELLED }]
    { orderId := "ord-1", status := .PROCESSED, reason := none, transactionId := none }
    "t2" { demoOrder with status := .CANCELLED } (by decide)
  exact h.1 (Or.inr rfl)

/-- C8: a card number ending in 0000 is always declined by the
simulated gateway, whatever the value tier and the random draw. -/
theorem c8_card_suffix_0000_always_declined (paymentData : PaymentData)
    (totalValue : Int) (randomDraw : Rat)
    (h : jsEndsWith paymentData.cardNumber ("0000") = true) :
    ProcessTransaction.simulatePaymentApproval paymentData totalValue randomDraw = false := by
  simp [ProcessTransaction.simulatePaymentApproval, h]

/-- C8 witness: the suffix override fires on a concrete card for a LOW
tier value and a draw that would otherwise approve. -/
theorem c8_witness :
    jsEndsWith ("4234567890120000") ("0000") = true ∧
    ProcessTransaction.simulatePaymentApproval
      { cardNumber := "4234567890120000", cardHolderName := "ANA SILVA",
        expiryMonth := "01", expiryYear := "2030", cvv := "123" } 50 0 = false :=
  ⟨by decide,
   c8_card_suffix_0000_always_declined
     { cardNumber := "4234567890120000", cardHolderName := "ANA SILVA",
       expiryMonth := "01", expiryYear := "2030", cvv := "123" } 50 0 (by decide)⟩

/-- C7: every Transaction record the payment worker builds stores the
card number as the fixed mask followed by the last four characters, the
cvv as the fixed sentinel, and the customer cpf masked; for an all-digit
card number and cvv the stored fields differ from the raw values, so no
full unmasked card number or raw cvv is persisted. -/
theorem c7_transaction_stores_masked_data (transactionId orderId : String)
    (totalValue : Int) (paymentData : PaymentData) (addressData : AddressData)
    (customerData : CustomerData) (paymentResult : ProcessTransaction.PaymentResult)
    (now : String)
    (hcard : ∀ c ∈ paymentData.cardNumber.data, c.isDigit = true)
    (hcvv : ∀ c ∈ paymentData.cvv.data, c.isDigit = true) :
    (ProcessTransaction.createTransactionRecord transactionId orderId totalValue
        paymentData addressData customerData paymentResult now).paymentData.cardNumber
      = "****-****-****-" ++ jsSliceLast paymentData.cardNumber 4 ∧
    (ProcessTransaction.createTransactionRecord transactionId orderId totalValue
        paymentData addressData customerData paymentResult now).paymentData.cvv
      = "***" ∧
    (ProcessTransaction.createTransactionRecord transactionId orderId totalValue
        paymentData addressData customerData paymentResult now).customerData.cpf
      = maskSensitiveData.cpf customerData.cpf ∧
    (ProcessTransaction.createTransactionRecord transactionId orderId totalValue
        paymentData addressData customerData paymentResult now).paymentData.cardNumber
      ≠ paymentData.cardNumber ∧
    (ProcessTransaction.createTransactionRecord transactionId orderId totalValue
        paymentData addressData customerData paymentResult now).paymentData.cvv
      ≠ paymentData.cvv := by
  refine ⟨rfl, rfl, rfl, ?_, ?_⟩
  · intro heq
    have hdata := congrArg String.data heq
    simp only [ProcessTransaction.createTransactionRecord, String.data_append] at hdata
    have hstar : ('*' : Char) ∈ paymentData.cardNumber.data := by
      rw [← hdata]
      exact List.mem_append_left _ (by decide)
    have := hcard _ hstar
    simp at this
  · intro heq
    have hdata := congrArg String.data heq
    simp only [ProcessTransaction.createTransactionRecord] at hdata
    have hstar : ('*' : Char) ∈ paymentData.cvv.data := by
      rw [← hdata]
      decide
    have := hcvv _ hstar
    simp at this

/-- C7 witness: the masked record for a concrete all-digit card. -/
theorem c7_witness :
    (∀ c ∈ ("4111111111111111").data, c.isDigit = true) ∧
    (∀ c ∈ ("123").data, c.isDigit = true) ∧
    ((ProcessTransaction.createTransactionRecord ("txn-1") "ord-1" 50 demoPayment
        demoAddress demoCustomer
        { status := .APPROVED, processingTime := 250, authCode := some ("AUTH-1"),
          errorMessage := none } "t1").paymentData.cardNumber
      = "****-****-****-" ++ jsSliceLast ("4111111111111111") 4 ∧
     (ProcessTransaction.createTransactionRecord ("txn-1") "ord-1" 50 demoPayment
        demoAddress demoCustomer
        { status := .APPROVED, processingTime := 250, authCode := some ("AUTH-1"),
          errorMessage := none } "t1").paymentData.cvv = "***" ∧
     (ProcessTransaction.createTransactionRecord ("txn-1") "ord-1" 50 demoPayment
        demoAddress demoCustomer
        { status := .APPROVED, processingTime := 250, authCode := some ("AUTH-1"),
          errorMessage := none } "t1").customerData.cpf
      = maskSensitiveData.cpf ("12345678901") ∧
     (ProcessTransaction.createTransactionRecord ("txn-1") "ord-1" 50 demoPayment
        demoAddress demoCustomer
        { status := .APPROVED, processingTime := 250, authCode := some ("AUTH-1"),
          errorMessage := none } "t1").paymentData.cardNumber ≠ "4111111111111111" ∧
     (ProcessTransaction.createTransactionRecord ("txn-1") "ord-1" 50 demoPayment
        demoAddress demoCustomer
        { status := .APPROVED, processingTime := 250, authCode := some ("AUTH-1"),
          errorMessage := none } "t1").paymentData.cvv ≠ "123") :=
  ⟨by decide, by decide,
   c7_transaction_stores_masked_data ("txn-1") "ord-1" 50 demoPayment demoAddress
     demoCustomer
     { status := .APPROVED, processingTime := 250, authCode := some ("AUTH-1"),
       errorMessage := none } "t1" (by decide) (by decide)⟩

/-- C3: for a DECREASE message with a fresh entry id, the stock worker
succeeds exactly when the ledger sum covers the quantity, in which case
the new ledger is the old one with exactly one appended entry carrying
the fresh id (no existing entry is modified or deleted); when the sum is
short the worker fails with the insufficient-stock error. -/
theorem c3_decrease_checks_sum_then_appends (products : List ProductData)
    (ledger : List ProductStockData) (message : StockUpdateMessage)
    (freshId now : String)
    (hop : message.operation = .DECREASE)
    (hfresh : ∀ e ∈ ledger, e.id ≠ freshId) :
    (∀ ledger2, UpdateProductStock.processStockUpdate products ledger message freshId now
          = .ok ledger2 →
        (message.quantity : Int) ≤ calculateCurrentStock ledger message.productId ∧
        ledger2 = ledger ++
          [⟨freshId, message.productId, message.operation, message.quantity,
            message.reason, some message.orderId, now⟩]) ∧
    (∀ product, UpdateProductStock.getProductById products message.productId = some product →
        product.isActive = true →
        calculateCurrentStock ledger message.productId < (message.quantity : Int) →
        UpdateProductStock.processStockUpdate products ledger message freshId now
          = .error (.insufficientStock message.productId
              (calculateCurrentStock ledger message.productId) message.quantity)) := by
  have hput : ∀ entry : ProductStockData, entry.id = freshId →
      UpdateProductStock.putStockEntry ledger entry = ledger ++ [entry] := by
    intro entry hid
    unfold UpdateProductStock.putStockEntry
    have hany : (ledger.any (fun e => e.id == entry.id)) = false := by
      rw [List.any_eq_false]
      intro e he
      simp only [beq_iff_eq, hid]
      exact hfresh e he
    rw [hany]
    simp
  constructor
  · intro ledger2 hok
    cases hget : UpdateProductStock.getProductById products message.productId with
    | none =>
      simp [UpdateProductStock.processStockUpdate, hget] at hok
    | some product =>
      simp only [UpdateProductStock.processStockUpdate, hget] at hok
      rw [hop] at hok
      split at hok
      · split at hok
        · split at hok
          · exact absurd hok (by simp)
          · next hshort =>
              refine ⟨le_of_not_lt hshort, ?_⟩
              unfold UpdateProductStock.createStockEntry at hok
              rw [hput _ rfl] at hok
              simp only [Except.ok.injEq] at hok
              subst hok
              rw [hop]
        · next hdec => exact absurd rfl hdec
      · exact absurd hok (by simp)
  · intro product hget hactive hshort
    simp only [UpdateProductStock.processStockUpdate, hget, hactive, hop,
      eq_self_iff_true, if_true]
    rw [if_pos hshort]

/-- C3 witness: with a ledger summing to 2 a DECREASE of 2 appends one
entry, and a DECREASE of 3 fails. -/
theorem c3_witness :
    (({ id := "se-1", productId := "p1", type := .INCREASE, quantity := 2,
        reason := "restock", orderId := none, createdAt := "t0" } : ProductStockData).id
      ≠ "se-2") ∧
    UpdateProductStock.processStockUpdate
      [{ id := "p1", name := "Produto", price := 10, description := "d",
         isActive := true, hasStockControl := some true }]
      [{ id := "se-1", productId := "p1", type := .INCREASE, quantity := 2,
         reason := "restock", orderId := none, createdAt := "t0" }]
      { productId := "p1", quantity := 2, operation := .DECREASE,
        orderId := "ord-1", reason := "Order sale" } "se-2" "t1"
      = .ok
        ([{ id := "se-1", productId := "p1", type := .INCREASE, quantity := 2,
            reason := "restock", orderId := none, createdAt := "t0" }] ++
         [{ id := "se-2", productId := "p1", type := .DECREASE, quantity := 2,
            reason := "Order sale", orderId := some ("ord-1"), createdAt := "t1" }]) ∧
    UpdateProductStock.processStockUpdate
      [{ id := "p1", name := "Produto", price := 10, description := "d",
         isActive := true, hasStockControl := some true }]
      [{ id := "se-1", productId := "p1", type := .INCREASE, quantity := 2,
         reason := "restock", orderId := none, createdAt := "t0" }]
      { productId := "p1", quantity := 3, operation := .DECREASE,
        orderId := "ord-1", reason := "Order sale" } "se-2" "t1"
      = .error (.insufficientStock ("p1") 2 3) := by
  refine ⟨by decide, by rfl, ?_⟩
  exact (c3_decrease_checks_sum_then_appends
    [{ id := "p1", name := "Produto", price := 10, description := "d",
       isActive := true, hasStockControl := some true }]
    [{ id := "se-1", productId := "p1", type := .INCREASE, quantity := 2,
       reason := "restock", orderId := none, createdAt := "t0" }]
    { productId := "p1", quantity := 3, operation := .DECREASE,
      orderId := "ord-1", reason := "Order sale" } "se-2" "t1" rfl
    (by decide)).2
    { id := "p1", name := "Produto", price := 10, description := "d",
      isActive := true, hasStockControl := some true } (by decide) (by decide) (by decide)

/-! ## Enrichment lemmas -/

theorem enrich_ok_forall2 (db : Db) :
    ∀ (reqs : List ReqItem) (es : List OrderItem),
      CreateOrder.enrichOrderItems db reqs = .ok es →
      List.Forall₂ (fun (r : ReqItem) (e : OrderItem) =>
        e.id = r.id ∧ e.quantity = r.quantity) reqs es := by
  intro reqs
  induction reqs with
  | nil =>
    intro es h
    simp only [CreateOrder.enrichOrderItems, Except.ok.injEq] at h
    subst h
    exact .nil
  | cons item rest ih =>
    intro es h
    cases hget : CreateOrder.getProductById db.products item.id with
    | some product =>
      simp only [CreateOrder.enrichOrderItems, hget] at h
      split at h
      · exact absurd h (by simp)
      · rw [except_map_eq_ok] at h
        obtain ⟨es0, hrest, rfl⟩ := h
        exact .cons ⟨rfl, rfl⟩ (ih es0 hrest)
    | none =>
      simp only [CreateOrder.enrichOrderItems, hget] at h
      rw [except_map_eq_ok] at h
      obtain ⟨es0, hrest, rfl⟩ := h
      exact .cons ⟨rfl, rfl⟩ (ih es0 hrest)

theorem enrich_ok_mem (db : Db) :
    ∀ (reqs : List ReqItem) (es : List OrderItem),
      CreateOrder.enrichOrderItems db reqs = .ok es →
      ∀ e ∈ es, e.totalPrice = e.unitPrice * (e.quantity : Int) ∧
        ((∃ p, CreateOrder.getProductById db.products e.id = some p ∧
            e.unitPrice = p.price ∧ e.productName = p.name) ∨
         (CreateOrder.getProductById db.products e.id = none ∧ e.unitPrice = 0 ∧
            e.productName = "Unknown Product")) := by
  intro reqs
  induction reqs with
  | nil =>
    intro es h
    simp only [CreateOrder.enrichOrderItems, Except.ok.injEq] at h
    subst h
    intro e he
    exact absurd he (List.not_mem_nil e)
  | cons item rest ih =>
    intro es h
    cases hget : CreateOrder.getProductById db.products item.id with
    | some product =>
      simp only [CreateOrder.enrichOrderItems, hget] at h
      split at h
      · exact absurd h (by simp)
      · rw [except_map_eq_ok] at h
        obtain ⟨es0, hrest, rfl⟩ := h
        intro e he
        rcases List.mem_cons.mp he with rfl | he0
        · exact ⟨rfl, Or.inl ⟨product, hget, rfl, rfl⟩⟩
        · exact ih es0 hrest e he0
    | none =>
      simp only [CreateOrder.enrichOrderItems, hget] at h
      rw [except_map_eq_ok] at h
      obtain ⟨es0, hrest, rfl⟩ := h
      intro e he
      rcases List.mem_cons.mp he with rfl | he0
      · exact ⟨(zero_mul _).symm, Or.inr ⟨hget, rfl, rfl⟩⟩
      · exact ih es0 hrest e he0

theorem enrich_error_of_shortfall (db : Db) :
    ∀ (reqs : List ReqItem),
      (∃ item ∈ reqs, CreateOrder.stockShortfall db item = true) →
      ∃ n r a, CreateOrder.enrichOrderItems db reqs
        = .error (.insufficientStock n r a) := by
  intro reqs
  induction reqs with
  | nil =>
    rintro ⟨item, hmem, _⟩
    exact absurd hmem (List.not_mem_nil item)
  | cons x rest ih =>
    rintro ⟨item, hmem, hshort⟩
    rcases List.mem_cons.mp hmem with rfl | hmem0
    · cases hget : CreateOrder.getProductById db.products item.id with
      | none => simp [CreateOrder.stockShortfall, hget] at hshort
      | some product =>
        simp only [CreateOrder.stockShortfall, hget, Bool.and_eq_true,
          decide_eq_true_eq] at hshort
        refine ⟨product.name, item.quantity,
          calculateCurrentStock db.stockEntries item.id, ?_⟩
        simp only [CreateOrder.enrichOrderItems, hget]
        rw [if_pos ⟨hshort.1, hshort.2⟩]
    · obtain ⟨n, r, a, herr⟩ := ih ⟨item, hmem0, hshort⟩
      cases hget : CreateOrder.getProductById db.products x.id with
      | some product =>
        by_cases hcond : (product.hasStockControl.getD false) = true ∧
            calculateCurrentStock db.stockEntries x.id < (x.quantity : Int)
        · refine ⟨product.name, x.quantity,
            calculateCurrentStock db.stockEntries x.id, ?_⟩
          simp only [CreateOrder.enrichOrderItems, hget]
          rw [if_pos hcond]
        · refine ⟨n, r, a, ?_⟩
          simp only [CreateOrder.enrichOrderItems, hget]
          rw [if_neg hcond, herr]
          rfl
      | none =>
        refine ⟨n, r, a, ?_⟩
        simp only [CreateOrder.enrichOrderItems, hget]
        rw [herr]
        rfl

/-- C5 counterexample: with the only catalog product present but
inactive, enrichment does not fail; the whole record succeeds and an
Order row is created whose item references the inactive product with
the Unknown Product fallback. -/
theorem c5_counterexample :
    (CreateOrder.processOrderRecord demoInactiveDb demoInactiveMsg ("lead-9") "t1").result
        = .ok () ∧
    (CreateOrder.processOrderRecord demoInactiveDb demoInactiveMsg ("lead-9") "t1").db.orders.map
        (fun o => o.items.map (fun e => (e.id, e.productName, e.unitPrice)))
      = [[("p1", "Unknown Product", 0)]] :=
  ⟨rfl, rfl⟩

/-- C5 (amended): a missing or inactive product does not fail Phase A;
the lookup returns none for an inactive product, and enrichment
produces the Unknown Product fallback item with zero prices, so the
order proceeds referencing that product id. -/
theorem c5_missing_or_inactive_product_falls_back (db : Db) (item : ReqItem)
    (rest : List ReqItem) (es : List OrderItem)
    (hmiss : CreateOrder.getProductById db.products item.id = none)
    (hrest : CreateOrder.enrichOrderItems db rest = .ok es) :
    CreateOrder.enrichOrderItems db (item :: rest)
      = .ok ({ id := item.id, quantity := item.quantity, unitPrice := 0,
               totalPrice := 0, productName := "Unknown Product",
               hasStockControl := false } :: es) ∧
    ∀ product, db.products.find? (fun p => p.id == item.id) = some product →
      product.isActive = false →
      CreateOrder.getProductById db.products item.id = none := by
  constructor
  · simp only [CreateOrder.enrichOrderItems, hmiss, hrest]
    rfl
  · intro product hfind hinactive
    simp [CreateOrder.getProductById, hfind, hinactive]

/-- C5 witness: the amended fallback behavior at a concrete inactive
product. -/
theorem c5_witness :
    CreateOrder.getProductById demoInactiveDb.products ("p1") = none ∧
    CreateOrder.enrichOrderItems demoInactiveDb [] = .ok [] ∧
    CreateOrder.enrichOrderItems demoInactiveDb [{ id := "p1", quantity := 2 }]
      = .ok [{ id := "p1", quantity := 2, unitPrice := 0, totalPrice := 0,
               productName := "Unknown Product", hasStockControl := false }] :=
  ⟨rfl, rfl,
   (c5_missing_or_inactive_product_falls_back demoInactiveDb
     { id := "p1", quantity := 2 } [] [] rfl rfl).1⟩

/-- C6: when some requested item has stock control and the ledger sum is
below its quantity, the order worker fails the record with the
insufficient-stock error during Phase A, the store is untouched (no
Order row), and no stock message and no payment message is published. -/
theorem c6_insufficient_stock_fails_without_effects (db : Db) (message : MessageData)
    (newLeadId now : String)
    (hshort : ∃ item ∈ message.items, CreateOrder.stockShortfall db item = true) :
    ∃ n r a, CreateOrder.processOrderRecord db message newLeadId now
      = { result := .error (.insufficientStock n r a), db := db,
          stockMessages := [], transactionMessages := [] } := by
  obtain ⟨n, r, a, herr⟩ := enrich_error_of_shortfall db message.items hshort
  refine ⟨n, r, a, ?_⟩
  simp only [CreateOrder.processOrderRecord, herr]

/-- C6 witness: a ledger summing to 2 against a requested quantity of
10 fails the record with no store change and no messages. -/
theorem c6_witness :
    (∃ item ∈ demoShortMsg.items, CreateOrder.stockShortfall demoShortDb item = true) ∧
    (∃ n r a, CreateOrder.processOrderRecord demoShortDb demoShortMsg ("lead-9") "t1"
      = { result := .error (.insufficientStock n r a), db := demoShortDb,
          stockMessages := [], transactionMessages := [] }) :=
  ⟨⟨{ id := "p1", quantity := 10 }, by decide, by decide⟩,
   c6_insufficient_stock_fails_without_effects demoShortDb demoShortMsg ("lead-9") "t1"
     ⟨{ id := "p1", quantity := 10 }, by decide, by decide⟩⟩

/-- C10: when enrichment succeeds the enriched list has the same length
and order as the requested list and the k-th enriched item preserves the
k-th requested id and quantity. -/
theorem c10_enrichment_preserves_request_items (db : Db) (reqs : List ReqItem)
    (es : List OrderItem)
    (henrich : CreateOrder.enrichOrderItems db reqs = .ok es) :
    es.length = reqs.length ∧
    ∀ (k : Nat) (hk : k < reqs.length) (hk2 : k < es.length),
      (es.get ⟨k, hk2⟩).id = (reqs.get ⟨k, hk⟩).id ∧
      (es.get ⟨k, hk2⟩).quantity = (reqs.get ⟨k, hk⟩).quantity := by
  have h2 := enrich_ok_forall2 db reqs es henrich
  have h3 := List.forall₂_iff_get.mp h2
  exact ⟨h3.1.symm, fun k hk hk2 => h3.2 k hk hk2⟩

/-- C10 witness: a two-item request (one catalog hit, one miss) is
enriched pointwise with ids and quantities preserved. -/
theorem c10_witness :
    CreateOrder.enrichOrderItems demoShortDb demoTwoReqs = .ok demoTwoEnriched ∧
    demoTwoEnriched.length = demoTwoReqs.length ∧
    ∀ (k : Nat) (hk : k < demoTwoReqs.length) (hk2 : k < demoTwoEnriched.length),
      (demoTwoEnriched.get ⟨k, hk2⟩).id = (demoTwoReqs.get ⟨k, hk⟩).id ∧
      (demoTwoEnriched.get ⟨k, hk2⟩).quantity = (demoTwoReqs.get ⟨k, hk⟩).quantity := by
  refine ⟨by rfl, ?_⟩
  exact c10_enrichment_preserves_request_items demoShortDb demoTwoReqs demoTwoEnriched (by rfl)

theorem foldl_add_map_sum {M : Type} [AddCommMonoid M] {α : Type} (f : α → M) :
    ∀ (l : List α) (a : M), l.foldl (fun acc x => acc + f x) a = a + (l.map f).sum := by
  intro l
  induction l with
  | nil => intro a; simp
  | cons x xs ih =>
    intro a
    simp only [List.foldl_cons, List.map_cons, List.sum_cons, ih, add_assoc]

/-- C9: a successful record leaves exactly one new Order row whose
totals are the sum of the item quantities and the sum of the item total
prices, each enriched item has totalPrice equal to unitPrice times
quantity, and unitPrice is the catalog price of the product (zero when
the lookup misses). -/
theorem c9_order_totals_are_sums (db : Db) (message : MessageData)
    (newLeadId now : String) (es : List OrderItem)
    (henrich : CreateOrder.enrichOrderItems db message.items = .ok es)
    (hok : (CreateOrder.processOrderRecord db message newLeadId now).result = .ok ()) :
    ∃ orderRecord : OrderData,
      (CreateOrder.processOrderRecord db message newLeadId now).db.orders
          = db.orders ++ [orderRecord] ∧
      orderRecord.items = es ∧
      orderRecord.totalItems = (es.map (fun e => e.quantity)).sum ∧
      orderRecord.totalValue = (es.map (fun e => e.totalPrice)).sum ∧
      (∀ e ∈ es, e.totalPrice = e.unitPrice * (e.quantity : Int) ∧
        ((∃ p, CreateOrder.getProductById db.products e.id = some p ∧
            e.unitPrice = p.price) ∨
         (CreateOrder.getProductById db.products e.id = none ∧ e.unitPrice = 0))) := by
  have hmem := enrich_ok_mem db message.items es henrich
  simp only [CreateOrder.processOrderRecord, henrich] at hok ⊢
  cases hlead : CreateOrder.findOrCreateLead db.leads message.customerData.email
      message.customerData.cpf message.customerData.name newLeadId now with
  | error e =>
    rw [hlead] at hok
    exact Except.noConfusion hok
  | ok pair =>
    obtain ⟨leadData, leads2⟩ := pair
    rw [hlead] at hok
    dsimp only at hok ⊢
    cases hcreate : CreateOrder.createOrderInDatabase db.orders
        (CreateOrder.buildOrderRecord message leadData es
          (es.foldl (fun total item => total + item.totalPrice) 0) now) with
    | error e =>
      rw [hcreate] at hok
      exact Except.noConfusion hok
    | ok orders2 =>
      rw [hcreate] at hok
      dsimp only at hok ⊢
      have horders2 : orders2 = db.orders ++
          [CreateOrder.buildOrderRecord message leadData es
            (es.foldl (fun total item => total + item.totalPrice) 0) now] := by
        unfold CreateOrder.createOrderInDatabase at hcreate
        split at hcreate
        · exact absurd hcreate (by simp)
        · simp only [Except.ok.injEq] at hcreate
          exact hcreate.symm
      refine ⟨CreateOrder.buildOrderRecord message leadData es
        (es.foldl (fun total item => total + item.totalPrice) 0) now,
        horders2, rfl, ?_, ?_, fun e he => ⟨(hmem e he).1, ?_⟩⟩
      · show es.foldl (fun total item => total + item.quantity) 0
            = (es.map (fun e => e.quantity)).sum
        rw [foldl_add_map_sum]
        exact zero_add _
      · show es.foldl (fun total item => total + item.totalPrice) 0
            = (es.map (fun e => e.totalPrice)).sum
        rw [foldl_add_map_sum]
        exact zero_add _
      · rcases (hmem e he).2 with ⟨p, hp, hprice, _⟩ | ⟨hnone, hzero, _⟩
        · exact Or.inl ⟨p, hp, hprice⟩
        · exact Or.inr ⟨hnone, hzero⟩

/-- C9 witness: the happy-path record creates one Order with totals 2
and 20 over its single enriched item. -/
theorem c9_witness :
    CreateOrder.enrichOrderItems demoOkDb demoOkMsg.items = .ok demoOkEnriched ∧
    (CreateOrder.processOrderRecord demoOkDb demoOkMsg ("lead-9") "t1").result = .ok () ∧
    (∃ orderRecord : OrderData,
      (CreateOrder.processOrderRecord demoOkDb demoOkMsg ("lead-9") "t1").db.orders
          = demoOkDb.orders ++ [orderRecord] ∧
      orderRecord.items = demoOkEnriched ∧
      orderRecord.totalItems = (demoOkEnriched.map (fun e => e.quantity)).sum ∧
      orderRecord.totalValue = (demoOkEnriched.map (fun e => e.totalPrice)).sum ∧
      (∀ e ∈ demoOkEnriched, e.totalPrice = e.unitPrice * (e.quantity : Int) ∧
        ((∃ p, CreateOrder.getProductById demoOkDb.products e.id = some p ∧
            e.unitPrice = p.price) ∨
         (CreateOrder.getProductById demoOkDb.products e.id = none ∧
            e.unitPrice = 0)))) :=
  ⟨rfl, rfl,
   c9_order_totals_are_sums demoOkDb demoOkMsg ("lead-9") "t1" demoOkEnriched rfl rfl⟩

theorem findOrCreateLead_ok_of_fresh (leads : List LeadData)
    (email cpf name newLeadId now : String)
    (hfresh : ∀ l ∈ leads, l.id ≠ newLeadId) :
    ∃ leadData leads2,
      CreateOrder.findOrCreateLead leads email cpf name newLeadId now
        = .ok (leadData, leads2) := by
  cases hfind : CreateOrder.findExistingLead leads email cpf with
  | some l =>
    refine ⟨l, leads, ?_⟩
    simp only [CreateOrder.findOrCreateLead, hfind]
  | none =>
    have hany : leads.any (fun l => l.id == newLeadId) = false := by
      rw [List.any_eq_false]
      intro l hl
      simp only [beq_iff_eq]
      exact hfresh l hl
    refine ⟨⟨newLeadId, cpf, name, email, now, now⟩,
      leads ++ [⟨newLeadId, cpf, name, email, now, now⟩], ?_⟩
    simp only [CreateOrder.findOrCreateLead, hfind,
      CreateOrder.createLeadInDatabase, hany]
    rfl

/-- C1 (amended): a duplicate delivery whose orderId already has an
Order row makes the Phase D conditional insert fail with Conflict, the
error propagates and the record fails (it does not complete as
success), while the existing Order row is unchanged. -/
theorem c1_duplicate_delivery_raises_conflict (db : Db) (message : MessageData)
    (newLeadId now : String) (es : List OrderItem)
    (henrich : CreateOrder.enrichOrderItems db message.items = .ok es)
    (hdup : ∃ o ∈ db.orders, o.id = message.orderId)
    (hfresh : ∀ l ∈ db.leads, l.id ≠ newLeadId) :
    (CreateOrder.processOrderRecord db message newLeadId now).result
        = .error (.orderConflict message.orderId) ∧
    (CreateOrder.processOrderRecord db message newLeadId now).db.orders = db.orders := by
  obtain ⟨leadData, leads2, hlead⟩ := findOrCreateLead_ok_of_fresh db.leads
    message.customerData.email message.customerData.cpf message.customerData.name
    newLeadId now hfresh
  have hany : db.orders.any (fun o => o.id == message.orderId) = true := by
    rw [List.any_eq_true]
    obtain ⟨o, ho, hid⟩ := hdup
    exact ⟨o, ho, by simp [hid]⟩
  have hconflict : CreateOrder.createOrderInDatabase db.orders
      (CreateOrder.buildOrderRecord message leadData es
        (es.foldl (fun total item => total + item.totalPrice) 0) now)
      = .error (.orderConflict message.orderId) := by
    have hid : (CreateOrder.buildOrderRecord message leadData es
        (es.foldl (fun total item => total + item.totalPrice) 0) now).id
        = message.orderId := rfl
    unfold CreateOrder.createOrderInDatabase
    rw [hid, hany]
    simp
  simp [CreateOrder.processOrderRecord, henrich, hlead, hconflict]

/-- C1 counterexample: on a concrete duplicate delivery the record does
not complete without error; it fails with the order Conflict. -/
theorem c1_counterexample :
    (CreateOrder.processOrderRecord demoDupDb demoDupMsg ("lead-2") "t1").result
        = .error (.orderConflict ("ord-1")) ∧
    (CreateOrder.processOrderRecord demoDupDb demoDupMsg ("lead-2") "t1").result
        ≠ .ok () :=
  ⟨rfl, fun h => Except.noConfusion h⟩

/-- C1 witness: the amended statement at the concrete duplicate
delivery. -/
theorem c1_witness :
    CreateOrder.enrichOrderItems demoDupDb demoDupMsg.items = .ok [] ∧
    (∃ o ∈ demoDupDb.orders, o.id = demoDupMsg.orderId) ∧
    (∀ l ∈ demoDupDb.leads, l.id ≠ "lead-2") ∧
    ((CreateOrder.processOrderRecord demoDupDb demoDupMsg ("lead-2") "t1").result
        = .error (.orderConflict ("ord-1")) ∧
     (CreateOrder.processOrderRecord demoDupDb demoDupMsg ("lead-2") "t1").db.orders
        = demoDupDb.orders) :=
  ⟨rfl, ⟨demoOrder, by decide, rfl⟩, by decide,
   c1_duplicate_delivery_raises_conflict demoDupDb demoDupMsg ("lead-2") "t1" [] rfl
     ⟨demoOrder, by decide, rfl⟩ (by decide)⟩

/-- C4 counterexample: the lead-worker put carries no key precondition;
reusing an existing id overwrites the stored row instead of failing and
leaving it unchanged. -/
theorem c4_counterexample :
    CreateLead.createLeadInDatabase [demoLead] "22222222222" "b@x.io" "Bia" "lead-1" "t1"
      = [{ id := "lead-1", cpf := "22222222222", name := "Bia", email := "b@x.io",
           createdAt := "t1", updatedAt := "t1" }] ∧
    [({ id := "lead-1", cpf := "22222222222", name := "Bia", email := "b@x.io",
        createdAt := "t1", updatedAt := "t1" } : LeadData)] ≠ [demoLead] :=
  ⟨rfl, by decide⟩

/-- C4 (amended): the lead-worker insert is an unconditional put (no
attribute_not_exists condition): a put reusing an existing id replaces
that row, so the table never gains a second row per id; with pairwise
distinct ids before the call, the ids stay pairwise distinct after it,
which is what keeps at most one Lead row per id. -/
theorem c4_lead_insert_is_unconditional_put (leads : List LeadData)
    (cpf email name leadId now : String)
    (hnodup : (leads.map (fun l => l.id)).Nodup) :
    ((CreateLead.createLeadInDatabase leads cpf email name leadId now).map
        (fun l => l.id)).Nodup := by
  cases hfind : CreateLead.checkExistingLead leads cpf email with
  | some l =>
    simp only [CreateLead.createLeadInDatabase, hfind]
    exact hnodup
  | none =>
    simp only [CreateLead.createLeadInDatabase, hfind, CreateLead.putLead]
    by_cases hany : leads.any (fun l => l.id == leadId) = true
    · rw [if_pos hany]
      have hmap : (leads.map (fun l =>
          if l.id == leadId
          then ({ id := leadId, cpf := cpf, name := name, email := email,
                  createdAt := now, updatedAt := now } : LeadData)
          else l)).map (fun l => l.id) = leads.map (fun l => l.id) := by
        rw [List.map_map]
        refine List.map_congr_left ?_
        intro l hl
        by_cases h : (l.id == leadId) = true
        · simp only [Function.comp, h, if_true]
          exact (beq_iff_eq.mp h).symm
        · rw [Bool.not_eq_true] at h
          simp [Function.comp, h]
      rw [hmap]
      exact hnodup
    · rw [if_neg hany]
      rw [List.map_append, List.nodup_append]
      refine ⟨hnodup, List.nodup_singleton _, ?_⟩
      intro a ha hb
      rw [List.map_singleton, List.mem_singleton] at hb
      subst hb
      rw [List.mem_map] at ha
      obtain ⟨l, hl, hid⟩ := ha
      rw [Bool.not_eq_true] at hany
      have hne := List.any_eq_false.mp hany l hl
      simp only [beq_iff_eq] at hne
      exact hne hid

/-- C4 witness: the unconditional put at the concrete id collision
keeps the ids pairwise distinct. -/
theorem c4_witness :
    (([demoLead] : List LeadData).map (fun l => l.id)).Nodup ∧
    ((CreateLead.createLeadInDatabase [demoLead] "22222222222" "b@x.io" "Bia"
        "lead-1" "t1").map (fun l => l.id)).Nodup :=
  ⟨by decide,
   c4_lead_insert_is_unconditional_put [demoLead] "22222222222" "b@x.io" "Bia"
     "lead-1" "t1" (by decide)⟩
